import Mathlib

/-!
Shallow embedding of the Psycheverse admin backend
(psycheverse-admin/backend/server.js): the SQLite data model, the creator
CRUD and status endpoints, the subscription listing, the dashboard
aggregation, and the authentication middleware, together with theorems
settling the specification claims.

Modelling conventions, each taken from the source:
* Datetimes are integers (epoch seconds); CURRENT_TIMESTAMP is an explicit
  now parameter threaded into each handler.
* SQL NULL is Option.none; nullable columns are Option-typed.
* The external JSON deserializer (JSON.parse on the stored platforms
  string) is an abstract parameter parse : String -> Option (List String);
  none models a thrown SyntaxError.  The handlers test JS truthiness of
  the stored string before parsing, and the definitions mirror that.
* SQLite SUM over zero rows yields NULL, modelled by sqlSum returning
  none on an empty (or all-NULL) input list.
-/

/-- A row of the creators table, fields as in the CREATE TABLE statement
of server.js (platforms is a TEXT column holding a serialized sequence). -/
structure Creator where
  id : Int
  display_name : String
  description : Option String
  avatar_url : Option String
  status : String
  is_featured : Bool
  is_paid_member : Bool
  featured_priority : Int
  platforms : Option String
  viewers : Int
  last_live_start : Option Int
  last_seen : Option Int
  created_at : Int
  updated_at : Int
deriving DecidableEq

/-- A row of the subscriptions table of server.js. -/
structure Subscription where
  id : Int
  creator_id : Option Int
  stripe_subscription_id : Option String
  stripe_customer_id : Option String
  status : Option String
  plan_type : Option String
  amount : Option Int
  currency : String
  current_period_start : Option Int
  current_period_end : Option Int
  created_at : Int
deriving DecidableEq

/-- The serialized event_data payload of an analytics row.  The only writer
in server.js is the status endpoint, which stores the JSON serialization
of the status and viewers fields of the request body. -/
structure EventData where
  status : String
  viewers : Option Int
deriving DecidableEq

/-- A row of the analytics table of server.js. -/
structure AnalyticsEvent where
  event_type : String
  event_data : EventData
  creator_id : Option Int
  timestamp : Int
deriving DecidableEq

/-- The persistent store: the three tables the settled claims read or
write (admin_users and site_settings are not needed by any claim). -/
structure Store where
  creators : List Creator
  subscriptions : List Subscription
  analytics : List AnalyticsEvent
deriving DecidableEq

/-- A store with no creator, subscription, or analytics rows. -/
def emptyStore : Store := { creators := [], subscriptions := [], analytics := [] }

/-- The error taxonomy of the HTTP handlers: 400 bad request, 404 not
found, 500 database error. -/
inductive ApiError where
  | badRequest
  | notFound
  | storageError
deriving DecidableEq

/-- First creators row matching an id (db.get on SELECT by id). -/
def findCreator (st : Store) (id : Int) : Option Creator :=
  st.creators.find? (fun c => c.id == id)

/-- Insertion sort by a Boolean precedence relation, modelling an SQL
ORDER BY clause. -/
def insertOrdered (le : α → α → Bool) (x : α) : List α → List α
  | [] => [x]
  | y :: ys => if le x y then x :: y :: ys else y :: insertOrdered le x ys

/-- Sort a list by a Boolean precedence relation (SQL ORDER BY). -/
def sortRows (le : α → α → Bool) : List α → List α
  | [] => []
  | x :: xs => insertOrdered le x (sortRows le xs)

/-- SQLite SUM: NULL when there are no non-NULL input values, otherwise
the sum of the non-NULL values. -/
def sqlSum (l : List (Option Int)) : Option Int :=
  if (l.filterMap id).isEmpty then none else some (l.filterMap id).sum

/-- Result row shape of the creator-count aggregate of the dashboard. -/
structure CreatorStats where
  total_creators : Nat
  live_creators : Option Int
  featured_creators : Option Int
  paid_members : Option Int
  total_viewers : Option Int
deriving DecidableEq

/-- Result row shape of the subscription aggregate of the dashboard. -/
structure SubscriptionStats where
  total_subscriptions : Nat
  active_subscriptions : Option Int
  monthly_revenue : Option Int
deriving DecidableEq

/-- The three-part dashboard response of GET /api/analytics/dashboard. -/
structure DashboardStats where
  creators : CreatorStats
  subscriptions : SubscriptionStats
  recent_activity : List (String × Nat)
deriving DecidableEq

/-- Distinct event types in order of first appearance (the GROUP BY key
set; SQLite does not document a group output order, the claims settled
here only use the empty case). -/
def eventTypes (l : List AnalyticsEvent) : List String :=
  l.foldl (fun acc e => if e.event_type ∈ acc then acc else acc ++ [e.event_type]) []

/-- GROUP BY event_type with COUNT per group. -/
def groupByType (l : List AnalyticsEvent) : List (String × Nat) :=
  (eventTypes l).map (fun t => (t, (l.filter (fun e => e.event_type = t)).length))

/-- GET /api/analytics/dashboard: creator aggregate, subscription
aggregate, and the trailing-7-day event-type counts, computed exactly as
the three chained SQL statements of server.js.  All three statements are
well-formed, so no storage error path is reachable for them. -/
def dashboard (st : Store) (now : Int) : DashboardStats :=
  { creators :=
      { total_creators := st.creators.length
        live_creators :=
          sqlSum (st.creators.map (fun c => some (if c.status = "live" then (1 : Int) else 0)))
        featured_creators :=
          sqlSum (st.creators.map (fun c => some (if c.is_featured then (1 : Int) else 0)))
        paid_members :=
          sqlSum (st.creators.map (fun c => some (if c.is_paid_member then (1 : Int) else 0)))
        total_viewers := sqlSum (st.creators.map (fun c => some c.viewers)) }
    subscriptions :=
      { total_subscriptions := st.subscriptions.length
        active_subscriptions :=
          sqlSum (st.subscriptions.map
            (fun s => some (if s.status = some "active" then (1 : Int) else 0)))
        monthly_revenue :=
          sqlSum (st.subscriptions.map
            (fun s => if s.status = some "active" then s.amount else some 0)) }
    recent_activity := groupByType (st.analytics.filter (fun e => now - 604800 < e.timestamp)) }

/-- Columns of the creators table, from its CREATE TABLE statement. -/
def creatorsTableColumns : List String :=
  ["id", "display_name", "description", "avatar_url", "status", "is_featured",
   "is_paid_member", "featured_priority", "platforms", "viewers",
   "last_live_start", "last_seen", "created_at", "updated_at"]

/-- Creator-side columns referenced by the subscription list query of
GET /api/subscriptions (it selects c.display_name and c.email from the
creators alias). -/
def subsQueryCreatorColumns : List String := ["display_name", "email"]

/-- A row of the subscriptions list response: the subscription columns
plus the two joined creator columns. -/
structure SubRow where
  sub : Subscription
  display_name : Option String
  email : Option String
deriving DecidableEq

/-- ORDER BY s.created_at DESC. -/
def subCreatedDesc (a b : Subscription) : Bool := b.created_at ≤ a.created_at

/-- LEFT JOIN creators c ON s.creator_id = c.id: the joined creator
columns, NULL when no creator matches.  The creators table has no email
column, so a resolved query could only ever yield NULL there; this branch
is unreachable in listSubscriptions because preparation fails first. -/
def subRowOf (st : Store) (s : Subscription) : SubRow :=
  match st.creators.find? (fun c => some c.id == s.creator_id) with
  | some c => { sub := s, display_name := some c.display_name, email := none }
  | none => { sub := s, display_name := none, email := none }

/-- GET /api/subscriptions: the statement references c.display_name and
c.email on the creators alias; SQLite resolves column references when
preparing the statement and fails with a no-such-column error when a
referenced column is absent from the table, which db.all surfaces as the
generic 500 storage error. -/
def listSubscriptions (st : Store) : Except ApiError (List SubRow) :=
  if subsQueryCreatorColumns.all (fun col => creatorsTableColumns.contains col) then
    .ok ((sortRows subCreatedDesc st.subscriptions).map (subRowOf st))
  else
    .error .storageError

/-- C1 (counterexample): on the empty store the dashboard's live_creators
aggregate is SQL NULL, not zero — SUM over zero rows yields NULL — so the
claim that every aggregate field is zero and non-null is false. -/
theorem dashboard_empty_live_creators_null :
    (dashboard emptyStore 0).creators.live_creators = none ∧
    (dashboard emptyStore 0).creators.live_creators ≠ some 0 := by
  decide

/-- C1 (amended): dashboard() on the empty store succeeds and returns
COUNT-derived fields equal to zero (total_creators, total_subscriptions),
an empty recent-activity list, and NULL for every SUM-derived field
(live_creators, featured_creators, paid_members, total_viewers,
active_subscriptions, monthly_revenue). -/
theorem dashboard_empty_values :
    dashboard emptyStore 0 =
      { creators :=
          { total_creators := 0, live_creators := none, featured_creators := none,
            paid_members := none, total_viewers := none }
        subscriptions :=
          { total_subscriptions := 0, active_subscriptions := none, monthly_revenue := none }
        recent_activity := [] } := by
  decide

/-- C2: the subscription list query selects c.email from the creators
alias, but the creators table has no email column, so statement
preparation fails and every call — whatever the store contents — returns
the 500 storage error instead of the joined rows. -/
theorem listSubscriptions_always_fails (st : Store) :
    listSubscriptions st = .error ApiError.storageError := by
  simp [listSubscriptions]
  decide

/-- Request body of POST /api/creators/:id/status.  live_start arrives as
a JSON value; the handler tests its JS truthiness, which for a number is
being nonzero. -/
structure StatusReq where
  status : String
  viewers : Option Int
  live_start : Option Int
deriving DecidableEq

/-- JS truthiness of an optional numeric request field (absent and 0 are
falsy). -/
def numTruthy : Option Int → Bool
  | none => false
  | some n => n != 0

/-- The SET clause built by POST /api/creators/:id/status, applied to one
matching row: always status and updated_at; viewers when supplied; 
last_live_start when status is live and live_start is truthy; last_seen
unless status is offline. -/
def applyStatusUpdate (req : StatusReq) (now : Int) (c : Creator) : Creator :=
  let c := { c with status := req.status, updated_at := now }
  let c :=
    match req.viewers with
    | some v => { c with viewers := v }
    | none => c
  let c :=
    if req.status = "live" && numTruthy req.live_start then
      { c with last_live_start := req.live_start }
    else c
  if req.status != "offline" then { c with last_seen := some now } else c

/-- POST /api/creators/:id/status: runs the UPDATE (a well-formed
statement, so its error callback path is unreachable in this model), then
fire-and-forget inserts a status_change analytics row, then responds with
the success message without waiting for the insert.  analyticsOk models
whether that best-effort insert succeeds. -/
def setStatus (st : Store) (id : Int) (req : StatusReq) (now : Int)
    (analyticsOk : Bool) : String × Store :=
  let st1 : Store :=
    { st with creators := st.creators.map (fun c => if c.id == id then applyStatusUpdate req now c else c) }
  let st2 : Store :=
    if analyticsOk then
      { st1 with analytics := st1.analytics ++
          [{ event_type := "status_change"
             event_data := { status := req.status, viewers := req.viewers }
             creator_id := some id
             timestamp := now }] }
    else st1
  ("Status updated successfully", st2)

/-- If the updater preserves ids, updating every matching row commutes
with finding the first matching row. -/
theorem find_map_conditional (l : List Creator) (id : Int) (f : Creator → Creator)
    (hf : ∀ c, (f c).id = c.id) (c : Creator)
    (h : l.find? (fun x => x.id == id) = some c) :
    (l.map (fun x => if x.id == id then f x else x)).find? (fun x => x.id == id) =
      some (f c) := by
  induction l with
  | nil => simp at h
  | cons a as ih =>
    by_cases ha : a.id = id
    · have hb : (a.id == id) = true := by simpa using ha
      have hfb : ((f a).id == id) = true := by simp [hf a, ha]
      simp only [List.find?, hb] at h
      have hc : a = c := by injection h
      have hg : (if (a.id == id) = true then f a else a) = f a := if_pos hb
      rw [List.map_cons, hg]
      simp only [List.find?, hfb]
      rw [hc]
    · have hbf : (a.id == id) = false := by simpa using ha
      have hnb : ¬ ((a.id == id) = true) := by simp [hbf]
      simp only [List.find?, hbf] at h
      have hg : (if (a.id == id) = true then f a else a) = a := if_neg hnb
      rw [List.map_cons, hg]
      simp only [List.find?, hbf]
      exact ih h

/-- applyStatusUpdate never changes the row id. -/
theorem applyStatusUpdate_id (req : StatusReq) (now : Int) (c : Creator) :
    (applyStatusUpdate req now c).id = c.id := by
  unfold applyStatusUpdate
  cases req.viewers <;> dsimp only <;> split <;> split <;> rfl

/-- Field-wise value of the status-endpoint SET clause on one row. -/
theorem applyStatusUpdate_eq (req : StatusReq) (now : Int) (c : Creator) :
    applyStatusUpdate req now c =
      { c with
        status := req.status
        viewers := req.viewers.getD c.viewers
        updated_at := now
        last_seen := if req.status ≠ "offline" then some now else c.last_seen
        last_live_start :=
          if req.status = "live" ∧ numTruthy req.live_start = true then req.live_start
          else c.last_live_start } := by
  cases hv : req.viewers <;>
    by_cases h1 : req.status = "live" <;>
    by_cases h3 : req.status = "offline" <;>
    cases h2 : numTruthy req.live_start <;>
    simp [applyStatusUpdate, hv, h1, h3, h2]

/-- C3 (amended): for a creator present in the store, setStatus stamps
updated_at, stamps last_seen exactly when status is not the string
offline, copies viewers when supplied, and stamps last_live_start exactly
when status is live AND the supplied live_start is truthy (a supplied but
falsy live_start, e.g. 0, is ignored), in which case it is set to the
supplied value. -/
theorem setStatus_stamps (st : Store) (id : Int) (req : StatusReq) (now : Int)
    (ok : Bool) (c : Creator) (h : findCreator st id = some c) :
    findCreator (setStatus st id req now ok).2 id =
      some { c with
        status := req.status
        viewers := req.viewers.getD c.viewers
        updated_at := now
        last_seen := if req.status ≠ "offline" then some now else c.last_seen
        last_live_start :=
          if req.status = "live" ∧ numTruthy req.live_start = true then req.live_start
          else c.last_live_start } := by
  have hcr : ((setStatus st id req now ok).2).creators =
      st.creators.map (fun x => if x.id == id then applyStatusUpdate req now x else x) := by
    cases ok <;> rfl
  unfold findCreator at h ⊢
  rw [hcr, find_map_conditional st.creators id _ (fun x => applyStatusUpdate_id req now x) c h,
    applyStatusUpdate_eq]

/-- A concrete creator row used by the C3 theorems. -/
def creatorA : Creator :=
  { id := 1, display_name := "Luna", description := none, avatar_url := none,
    status := "offline", is_featured := false, is_paid_member := false,
    featured_priority := 0, platforms := none, viewers := 0,
    last_live_start := none, last_seen := none, created_at := 0, updated_at := 0 }

/-- A one-creator store used by the C3 counterexample. -/
def storeC3 : Store := { creators := [creatorA], subscriptions := [], analytics := [] }

/-- C3 (counterexample): status live with a supplied but falsy live_start
(the number 0) does NOT stamp last_live_start — the handler tests JS
truthiness, not presence — contradicting the claim that a supplied
live_start is always stored when status is live. -/
theorem setStatus_falsy_livestart_cex :
    (findCreator (setStatus storeC3 1
        { status := "live", viewers := none, live_start := some 0 } 5 true).2 1).map
        (fun c => c.last_live_start) = some none ∧
    some (none : Option Int) ≠ some (some (0 : Int)) := by
  decide

/-- A second concrete creator row, for the C3 witness. -/
def creatorB : Creator :=
  { id := 2, display_name := "Nova", description := some "tarot", avatar_url := none,
    status := "offline", is_featured := true, is_paid_member := false,
    featured_priority := 3, platforms := none, viewers := 4,
    last_live_start := none, last_seen := some 1, created_at := 0, updated_at := 0 }

/-- Store for the C3 witness. -/
def storeW3 : Store := { creators := [creatorB], subscriptions := [], analytics := [] }

/-- Request for the C3 witness: live with viewers 10 and truthy live_start. -/
def reqW3 : StatusReq := { status := "live", viewers := some 10, live_start := some 7 }

/-- C3 witness: the amended theorem evaluated at a concrete store and
request. -/
theorem setStatus_stamps_witness :
    findCreator storeW3 2 = some creatorB ∧
    findCreator (setStatus storeW3 2 reqW3 9 true).2 2 =
      some { creatorB with
        status := reqW3.status
        viewers := reqW3.viewers.getD creatorB.viewers
        updated_at := 9
        last_seen := if reqW3.status ≠ "offline" then some 9 else creatorB.last_seen
        last_live_start :=
          if reqW3.status = "live" ∧ numTruthy reqW3.live_start = true then reqW3.live_start
          else creatorB.last_live_start } :=
  ⟨by decide, setStatus_stamps storeW3 2 reqW3 9 true creatorB (by decide)⟩

/-- C7: whenever the (well-formed) creator UPDATE does not error, exactly
one status_change analytics row with payload status and viewers and the
given creator id is appended when the fire-and-forget insert succeeds —
the statement is universally quantified over the store and id, so it also
covers an id matching zero rows — and the success response is the same
string whether or not the analytics insert succeeds. -/
theorem setStatus_analytics_effect (st : Store) (id : Int) (req : StatusReq) (now : Int) :
    ((setStatus st id req now true).2.analytics =
      st.analytics ++
        [{ event_type := "status_change"
           event_data := { status := req.status, viewers := req.viewers }
           creator_id := some id
           timestamp := now }]) ∧
    ((setStatus st id req now false).2.analytics = st.analytics) ∧
    ((setStatus st id req now true).1 = (setStatus st id req now false).1) ∧
    ((setStatus st id req now true).1 = "Status updated successfully") :=
  ⟨rfl, rfl, rfl, rfl⟩

/-- Request body of PUT /api/creators/:id: fields absent from the request
are none; file models a multipart avatar upload; platforms arrives either
pre-serialized or as a sequence and is stored in its serialized form. -/
structure UpdateReq where
  display_name : Option String
  description : Option String
  file : Option String
  platforms : Option String
  status : Option String
  is_featured : Option Bool
  is_paid_member : Option Bool
  featured_priority : Option Int
  viewers : Option Int
deriving DecidableEq

/-- The accumulated SET clause of PUT /api/creators/:id applied to one
row, fields in the order the handler pushes them; updated_at is always
stamped last. -/
def applyUpdateFields (req : UpdateReq) (now : Int) (c : Creator) : Creator :=
  let c := match req.display_name with | some v => { c with display_name := v } | none => c
  let c := match req.description with | some v => { c with description := some v } | none => c
  let c := match req.file with | some fn => { c with avatar_url := some ("/uploads/" ++ fn) } | none => c
  let c := match req.platforms with | some v => { c with platforms := some v } | none => c
  let c := match req.status with | some v => { c with status := v } | none => c
  let c := match req.is_featured with | some v => { c with is_featured := v } | none => c
  let c := match req.is_paid_member with | some v => { c with is_paid_member := v } | none => c
  let c := match req.featured_priority with | some v => { c with featured_priority := v } | none => c
  let c := match req.viewers with | some v => { c with viewers := v } | none => c
  { c with updated_at := now }

/-- PUT /api/creators/:id: runs the dynamically assembled UPDATE and
responds 404 when this.changes is zero, i.e. when no row matched. -/
def updateCreator (st : Store) (id : Int) (req : UpdateReq) (now : Int) :
    Except ApiError Store :=
  if st.creators.any (fun c => c.id == id) then
    .ok { st with creators :=
      st.creators.map (fun c => if c.id == id then applyUpdateFields req now c else c) }
  else .error .notFound

/-- An update request supplying only the status field. -/
def statusOnlyReq (s : String) : UpdateReq :=
  { display_name := none, description := none, file := none, platforms := none,
    status := some s, is_featured := none, is_paid_member := none,
    featured_priority := none, viewers := none }

/-- C4: an update supplying only the status field mutates exactly status
and the always-stamped updated_at on the matching row — display_name,
description, avatar_url, platforms, is_featured, is_paid_member,
featured_priority, viewers, last_live_start, last_seen, and created_at
are untouched, as are all other rows — and an id matching no row fails
with the 404 not-found error. -/
theorem updateCreator_status_only (st : Store) (id : Int) (s : String) (now : Int) :
    updateCreator st id (statusOnlyReq s) now =
      (if st.creators.any (fun c => c.id == id) then
        Except.ok { st with creators := (st.creators.map (fun c =>
          if c.id == id then { c with status := s, updated_at := now } else c)) }
      else Except.error ApiError.notFound) := rfl

/-- One item of the bulk-status payload. -/
structure BulkItem where
  id : Int
  status : String
  viewers : Option Int
deriving DecidableEq

/-- The bulk-status request body: the updates value is either an array of
items or some other JSON value (the Array.isArray check of the handler). -/
inductive BulkPayload where
  | arr (items : List BulkItem)
  | nonArr
deriving DecidableEq

/-- JS (x || 0) on the optional numeric viewers field: absent and 0 are
falsy, so both give 0. -/
def jsOrZero : Option Int → Int
  | none => 0
  | some n => if n = 0 then 0 else n

/-- One prepared-statement run of the bulk loop: UPDATE status, viewers,
last_seen, updated_at on the rows matching the item id (zero matching
rows is a silent no-op, its outcome is never inspected). -/
def applyBulkItem (now : Int) (st : Store) (u : BulkItem) : Store :=
  { st with creators := (st.creators.map (fun c =>
      if c.id == u.id then
        { c with
          status := u.status
          viewers := jsOrZero u.viewers
          last_seen := some now
          updated_at := now }
      else c)) }

/-- POST /api/creators/bulk-status: 400 unless the payload is an array;
otherwise each item is applied independently, in order, and the response
reports the number of submitted updates — the array length — never the
number of rows actually matched. -/
def bulkSetStatus (st : Store) (p : BulkPayload) (now : Int) :
    Except ApiError (Store × Nat) :=
  match p with
  | .nonArr => .error .badRequest
  | .arr items => .ok (items.foldl (applyBulkItem now) st, items.length)

/-- A conditional per-element rewrite whose condition holds nowhere is the
identity map. -/
theorem map_noop (l : List Creator) (f : Creator → Creator) (p : Creator → Bool)
    (h : ∀ c ∈ l, p c = false) :
    l.map (fun c => if p c then f c else c) = l := by
  induction l with
  | nil => rfl
  | cons a as ih =>
    have ha := h a (by simp)
    simp [ha, ih (fun c hc => h c (by simp [hc]))]

/-- C5: a non-array payload is rejected with 400; an array payload is
applied item by item with the response counting the submitted items (the
array length) regardless of how many matched a row; an item matching no
creator leaves the store exactly as it was; and every row of the result
is either an untouched original row (with an id different from the item's)
or has last_seen and updated_at stamped. -/
theorem bulkSetStatus_spec (st : Store) (items : List BulkItem) (now : Int) :
    (bulkSetStatus st .nonArr now = .error ApiError.badRequest) ∧
    (bulkSetStatus st (.arr items) now =
      .ok (items.foldl (applyBulkItem now) st, items.length)) ∧
    (∀ u : BulkItem, (∀ c ∈ st.creators, c.id ≠ u.id) → applyBulkItem now st u = st) ∧
    (∀ u : BulkItem, ∀ c' ∈ (applyBulkItem now st u).creators,
      (c' ∈ st.creators ∧ c'.id ≠ u.id) ∨
        (c'.last_seen = some now ∧ c'.updated_at = now)) := by
  refine ⟨rfl, rfl, ?_, ?_⟩
  · intro u hu
    have h : ∀ c ∈ st.creators, (c.id == u.id) = false := by
      intro c hc
      simpa using hu c hc
    unfold applyBulkItem
    rw [map_noop _ _ _ h]
  · intro u c' hc'
    unfold applyBulkItem at hc'
    simp only [List.mem_map] at hc'
    obtain ⟨c, hcmem, hceq⟩ := hc'
    by_cases hid : c.id = u.id
    · right
      have hb : (c.id == u.id) = true := by simpa using hid
      rw [if_pos hb] at hceq
      rw [← hceq]
      exact ⟨rfl, rfl⟩
    · left
      have hb : ¬ ((c.id == u.id) = true) := by simpa using hid
      rw [if_neg hb] at hceq
      rw [← hceq]
      exact ⟨hcmem, hid⟩

/-- A concrete creator row for the C5 witness. -/
def creatorC5 : Creator :=
  { id := 1, display_name := "Vega", description := none, avatar_url := none,
    status := "live", is_featured := false, is_paid_member := true,
    featured_priority := 0, platforms := some "[]", viewers := 5,
    last_live_start := some 2, last_seen := some 3, created_at := 0, updated_at := 3 }

/-- Store for the C5 witness. -/
def storeC5 : Store := { creators := [creatorC5], subscriptions := [], analytics := [] }

/-- C5 witness: an item whose id (999) matches no creator is a silent
no-op on a concrete store. -/
theorem bulkSetStatus_spec_witness :
    (∀ c ∈ storeC5.creators, c.id ≠ (999 : Int)) ∧
    applyBulkItem 7 storeC5 { id := 999, status := "live", viewers := none } = storeC5 :=
  ⟨by decide,
   (bulkSetStatus_spec storeC5 [] 7).2.2.1
     { id := 999, status := "live", viewers := none } (by decide)⟩

/-- C10: an item whose viewers field is absent or 0 (both JS-falsy)
overwrites the viewers column of every matched row with 0 — the previous
value is never preserved. -/
theorem bulkItem_falsy_viewers_zero (st : Store) (u : BulkItem) (now : Int)
    (hv : u.viewers = none ∨ u.viewers = some 0) :
    applyBulkItem now st u =
      { st with creators := (st.creators.map (fun c =>
          if c.id == u.id then
            { c with
              status := u.status
              viewers := 0
              last_seen := some now
              updated_at := now }
          else c)) } := by
  have hz : jsOrZero u.viewers = 0 := by
    rcases hv with h | h <;> simp [jsOrZero, h]
  simp only [applyBulkItem, hz]

/-- A concrete creator with a nonzero viewers count, for the C10 witness. -/
def creatorC10 : Creator :=
  { id := 3, display_name := "Iris", description := none, avatar_url := none,
    status := "live", is_featured := false, is_paid_member := false,
    featured_priority := 0, platforms := none, viewers := 42,
    last_live_start := none, last_seen := some 1, created_at := 0, updated_at := 1 }

/-- Store for the C10 witness. -/
def storeC10 : Store := { creators := [creatorC10], subscriptions := [], analytics := [] }

/-- C10 witness: an item with absent viewers resets a previous count of 42
to 0 on the matched row. -/
theorem bulkItem_falsy_viewers_zero_witness :
    ((none : Option Int) = none ∨ (none : Option Int) = some 0) ∧
    applyBulkItem 7 storeC10 { id := 3, status := "offline", viewers := none } =
      { storeC10 with creators := (storeC10.creators.map (fun c =>
          if c.id == (3 : Int) then
            { c with
              status := "offline"
              viewers := 0
              last_seen := some 7
              updated_at := 7 }
          else c)) } :=
  ⟨Or.inl rfl,
   bulkItem_falsy_viewers_zero storeC10
     { id := 3, status := "offline", viewers := none } 7 (Or.inl rfl)⟩

/-- The identity embedded in a verified bearer token (the jwt payload
fields the middleware uses). -/
structure AuthUser where
  id : Int
  username : String
  role : String
deriving DecidableEq

/-- Outcome of the middleware chain: a rejection carrying the HTTP status
and the error-string body, or the request proceeding with the verified
identity. -/
inductive GateOutcome where
  | rejected (status : Nat) (error : String)
  | allowed (u : AuthUser)
deriving DecidableEq

/-- Split a character list at every occurrence of a separator (the JS
String.split with a one-character separator, on the character level). -/
def splitChars (sep : Char) : List Char → List (List Char)
  | [] => [[]]
  | c :: cs =>
    let r := splitChars sep cs
    if c = sep then [] :: r
    else
      match r with
      | [] => [[c]]
      | w :: ws => (c :: w) :: ws

/-- The JS authHeader.split of the middleware, with the blank separator. -/
def jsSplitSpace (s : String) : List String :=
  (splitChars ' ' s.data).map (fun w => String.mk w)

/-- Token extraction of authenticateToken: the second blank-separated word
of the authorization header; JS truthiness makes a missing header, a
missing second word, and an empty second word all count as no token. -/
def extractBearer (authHeader : Option String) : Option String :=
  match authHeader with
  | none => none
  | some h =>
    match (jsSplitSpace h)[1]? with
    | none => none
    | some t => if t = "" then none else some t

/-- The authenticateToken middleware: 401 without a token; 403 when
verification fails (verify abstracts jwt.verify, none modelling an
invalid or expired token); otherwise the request proceeds with the
verified identity. -/
def authenticateToken (verify : String → Option AuthUser)
    (authHeader : Option String) : GateOutcome :=
  match extractBearer authHeader with
  | none => .rejected 401 "Access token required"
  | some t =>
    match verify t with
    | none => .rejected 403 "Invalid or expired token"
    | some u => .allowed u

/-- The requireAdmin middleware: 403 unless the verified role is admin or
super_admin. -/
def requireAdmin (u : AuthUser) : GateOutcome :=
  if u.role ≠ "admin" ∧ u.role ≠ "super_admin" then
    .rejected 403 "Admin access required"
  else .allowed u

/-- An admin-gated route chains authenticateToken then requireAdmin. -/
def adminGate (verify : String → Option AuthUser)
    (authHeader : Option String) : GateOutcome :=
  match authenticateToken verify authHeader with
  | .allowed u => requireAdmin u
  | r => r

/-- C6: on every token-gated route a request without a bearer token is
rejected with 401 and the error-string body; a request whose token fails
verification is rejected with 403; and on an admin-gated route a verified
identity whose role is neither admin nor super_admin is rejected with
403. -/
theorem auth_gate_spec (verify : String → Option AuthUser) (h : Option String) :
    (extractBearer h = none →
      authenticateToken verify h = .rejected 401 "Access token required" ∧
      adminGate verify h = .rejected 401 "Access token required") ∧
    (∀ t, extractBearer h = some t → verify t = none →
      authenticateToken verify h = .rejected 403 "Invalid or expired token" ∧
      adminGate verify h = .rejected 403 "Invalid or expired token") ∧
    (∀ t u, extractBearer h = some t → verify t = some u →
      u.role ≠ "admin" → u.role ≠ "super_admin" →
      adminGate verify h = .rejected 403 "Admin access required") := by
  refine ⟨?_, ?_, ?_⟩
  · intro hn
    constructor <;> simp [authenticateToken, adminGate, hn]
  · intro t ht hv
    constructor <;> simp [authenticateToken, adminGate, ht, hv]
  · intro t u ht hv h1 h2
    simp [authenticateToken, adminGate, requireAdmin, ht, hv, h1, h2]

/-- A concrete verifier for the C6 witness: accepts exactly the token tok
as a viewer-role identity. -/
def verifyW6 : String → Option AuthUser :=
  fun t => if t = "tok" then some { id := 1, username := "bot", role := "viewer" } else none

/-- C6 witness: a verified non-admin identity is rejected with 403 on an
admin-gated route. -/
theorem auth_gate_spec_witness :
    (extractBearer (some "Bearer tok") = some "tok" ∧
      verifyW6 "tok" = some { id := 1, username := "bot", role := "viewer" } ∧
      ("viewer" : String) ≠ "admin" ∧ ("viewer" : String) ≠ "super_admin") ∧
    adminGate verifyW6 (some "Bearer tok") = .rejected 403 "Admin access required" :=
  ⟨⟨by decide, by decide, by decide, by decide⟩,
   (auth_gate_spec verifyW6 (some "Bearer tok")).2.2 "tok"
     { id := 1, username := "bot", role := "viewer" }
     (by decide) (by decide) (by decide) (by decide)⟩

/-- The platforms field of a response record: the raw column value (NULL
or the stored string, when the handler leaves it untouched) or a parsed
sequence. -/
inductive PlatOut where
  | pnull
  | praw (s : String)
  | plist (l : List String)
deriving DecidableEq

/-- A creator row as returned by the read endpoints: the row with its
platforms field replaced in place. -/
structure CreatorOut where
  id : Int
  display_name : String
  description : Option String
  avatar_url : Option String
  status : String
  is_featured : Bool
  is_paid_member : Bool
  featured_priority : Int
  platforms : PlatOut
  viewers : Int
  last_live_start : Option Int
  last_seen : Option Int
  created_at : Int
  updated_at : Int
deriving DecidableEq

/-- A creator row with its platforms column replaced by a response value
(all other columns returned verbatim). -/
def outWith (c : Creator) (p : PlatOut) : CreatorOut :=
  { id := c.id, display_name := c.display_name, description := c.description,
    avatar_url := c.avatar_url, status := c.status, is_featured := c.is_featured,
    is_paid_member := c.is_paid_member, featured_priority := c.featured_priority,
    platforms := p, viewers := c.viewers, last_live_start := c.last_live_start,
    last_seen := c.last_seen, created_at := c.created_at, updated_at := c.updated_at }

/-- Platforms rendering of GET /api/creators (list): a truthy stored
string is parsed with fallback to the empty sequence on failure, and the
else branch also assigns the empty sequence for NULL or empty values. -/
def renderPlatformsList (parse : String → Option (List String)) : Option String → PlatOut
  | none => .plist []
  | some s => if s = "" then .plist [] else .plist ((parse s).getD [])

/-- Platforms rendering of GET /api/creators/:id and of the export
endpoint: a truthy stored string is parsed with fallback to the empty
sequence on failure, but there is no else branch, so a NULL or empty
value is returned unchanged. -/
def renderPlatformsKeep (parse : String → Option (List String)) : Option String → PlatOut
  | none => .pnull
  | some s => if s = "" then .praw s else .plist ((parse s).getD [])

/-- Row rendering of the list endpoint. -/
def renderForList (parse : String → Option (List String)) (c : Creator) : CreatorOut :=
  outWith c (renderPlatformsList parse c.platforms)

/-- Row rendering of the get-by-id and export endpoints. -/
def renderForKeep (parse : String → Option (List String)) (c : Creator) : CreatorOut :=
  outWith c (renderPlatformsKeep parse c.platforms)

/-- GET /api/creators/:id: 404 when no row matches, otherwise the row
with platforms deserialized in place (no else branch on the truthiness
test). -/
def getCreatorById (parse : String → Option (List String)) (st : Store) (id : Int) :
    Except ApiError CreatorOut :=
  match findCreator st id with
  | none => .error .notFound
  | some c => .ok (renderForKeep parse c)

/-- Query parameters of GET /api/creators (all optional; limit defaults
to 50 and offset to 0, via parseInt of the query strings). -/
structure ListQuery where
  status : Option String
  featured : Option String
  search : Option String
  limit : Nat
  offset : Nat
deriving DecidableEq

/-- A query with no filters and the default pagination. -/
def defaultQuery : ListQuery :=
  { status := none, featured := none, search := none, limit := 50, offset := 0 }

/-- Whether a pattern matches at the head of a character list. -/
def leadMatch : List Char → List Char → Bool
  | [], _ => true
  | _ :: _, [] => false
  | p :: ps, h :: hs => p == h && leadMatch ps hs

/-- Whether a pattern occurs anywhere in a character list. -/
def anywhereMatch (pat : List Char) : List Char → Bool
  | [] => pat.isEmpty
  | h :: hs => leadMatch pat (h :: hs) || anywhereMatch pat hs

/-- SQL LIKE with the pattern wrapped in percent signs, as the search
filter builds it: case-insensitive substring containment. -/
def likeCI (hay pat : String) : Bool :=
  anywhereMatch pat.toLower.data hay.toLower.data

/-- The conjunctive WHERE clause of GET /api/creators: status equality
when the status parameter is truthy, is_featured equality against the
literal string true when featured is present at all, and the LIKE search
over display_name or description when search is truthy (a NULL
description never matches, as NULL LIKE x is not true). -/
def creatorMatchesQuery (q : ListQuery) (c : Creator) : Bool :=
  (match q.status with
   | some s => if s = "" then true else c.status == s
   | none => true) &&
  (match q.featured with
   | some f => c.is_featured == (f == "true")
   | none => true) &&
  (match q.search with
   | some s =>
     if s = "" then true
     else
       likeCI c.display_name s ||
         (match c.description with
          | some d => likeCI d s
          | none => false)
   | none => true)

/-- ORDER BY is_featured DESC, featured_priority DESC, last_seen DESC
(SQLite sorts NULL as smallest, hence last under DESC). -/
def listOrder (a b : Creator) : Bool :=
  if a.is_featured != b.is_featured then a.is_featured
  else if a.featured_priority != b.featured_priority then
    decide (a.featured_priority > b.featured_priority)
  else
    match a.last_seen, b.last_seen with
    | some x, some y => decide (x ≥ y)
    | some _, none => true
    | none, some _ => false
    | none, none => true

/-- GET /api/creators: filter, order, paginate, then deserialize
platforms row by row. -/
def listCreators (parse : String → Option (List String)) (q : ListQuery) (st : Store) :
    List CreatorOut :=
  ((((sortRows listOrder (st.creators.filter (creatorMatchesQuery q))).drop q.offset).take
    q.limit).map (renderForList parse))

/-- ORDER BY is_featured DESC, display_name ASC of the export endpoint. -/
def exportOrder (a b : Creator) : Bool :=
  if a.is_featured != b.is_featured then a.is_featured
  else decide (a.display_name ≤ b.display_name)

/-- GET /api/export/creators: every row, ordered, with platforms
deserialized in place (no else branch on the truthiness test). -/
def exportCreators (parse : String → Option (List String)) (st : Store) : List CreatorOut :=
  (sortRows exportOrder st.creators).map (renderForKeep parse)

/-- Membership after an ordered insertion comes from the inserted element
or the original list. -/
theorem mem_insertOrdered (le : α → α → Bool) (x a : α) (l : List α)
    (h : a ∈ insertOrdered le x l) : a = x ∨ a ∈ l := by
  induction l with
  | nil =>
    simp [insertOrdered] at h
    exact Or.inl h
  | cons y ys ih =>
    simp only [insertOrdered] at h
    split at h
    · rcases List.mem_cons.mp h with h1 | h2
      · exact Or.inl h1
      · exact Or.inr h2
    · rcases List.mem_cons.mp h with h1 | h2
      · exact Or.inr (h1 ▸ List.mem_cons_self y ys)
      · rcases ih h2 with h3 | h4
        · exact Or.inl h3
        · exact Or.inr (List.mem_cons_of_mem y h4)

/-- Sorting never invents rows: membership in the sorted list implies
membership in the source. -/
theorem mem_sortRows (le : α → α → Bool) (a : α) (l : List α)
    (h : a ∈ sortRows le l) : a ∈ l := by
  induction l with
  | nil => simp [sortRows] at h
  | cons x xs ih =>
    simp only [sortRows] at h
    rcases mem_insertOrdered le x a _ h with h1 | h2
    · exact h1 ▸ List.mem_cons_self x xs
    · exact List.mem_cons_of_mem x (ih h2)

/-- Every record the list endpoint returns is the list-rendering of some
stored creator row. -/
theorem listCreators_source (parse : String → Option (List String)) (q : ListQuery)
    (st : Store) (o : CreatorOut) (h : o ∈ listCreators parse q st) :
    ∃ c ∈ st.creators, o = renderForList parse c := by
  unfold listCreators at h
  rcases List.mem_map.mp h with ⟨c, hc, hco⟩
  have hc2 : c ∈ sortRows listOrder (st.creators.filter (creatorMatchesQuery q)) :=
    List.drop_subset _ _ (List.take_subset _ _ hc)
  have hc3 := mem_sortRows _ _ _ hc2
  exact ⟨c, List.mem_of_mem_filter hc3, hco.symm⟩

/-- Every record the export endpoint returns is the keep-rendering of
some stored creator row. -/
theorem exportCreators_source (parse : String → Option (List String))
    (st : Store) (o : CreatorOut) (h : o ∈ exportCreators parse st) :
    ∃ c ∈ st.creators, o = renderForKeep parse c := by
  unfold exportCreators at h
  rcases List.mem_map.mp h with ⟨c, hc, hco⟩
  exact ⟨c, mem_sortRows _ _ _ hc, hco.symm⟩

/-- A deserializer that fails on every input; instantiating the abstract
parse parameter for concrete stores whose stored platforms strings (the
empty string, a bare word) are all invalid JSON documents. -/
def noParse : String → Option (List String) := fun _ => none

/-- A creator whose platforms column holds the empty string, which is
invalid JSON but JS-falsy. -/
def creatorC8 : Creator :=
  { id := 1, display_name := "Echo", description := none, avatar_url := none,
    status := "offline", is_featured := false, is_paid_member := false,
    featured_priority := 0, platforms := some "", viewers := 0,
    last_live_start := none, last_seen := none, created_at := 0, updated_at := 0 }

/-- Store for the C8 counterexample. -/
def storeC8 : Store := { creators := [creatorC8], subscriptions := [], analytics := [] }

/-- C8 (counterexample): the empty string stored in platforms fails JSON
deserialization (JSON.parse of an empty document throws), yet get-by-id
returns it unchanged rather than as an empty sequence, because the
handler tests JS truthiness before parsing and the empty string is falsy,
skipping the parse-with-fallback entirely. -/
theorem platforms_empty_string_not_empty_list :
    noParse "" = none ∧
    getCreatorById noParse storeC8 1 = .ok (outWith creatorC8 (.praw "")) ∧
    PlatOut.praw "" ≠ PlatOut.plist [] :=
  ⟨rfl, rfl, by decide⟩

/-- C8 (amended): for a stored platforms value that is a nonempty (truthy)
string failing deserialization, the list, get, and export renderings all
return the empty sequence with no error; every row the list and export
endpoints return is the corresponding rendering of a stored row.  (A
stored empty string also fails JSON deserialization but is treated as
absent: the list rendering returns the empty sequence while get and
export return the string unchanged.) -/
theorem platforms_parse_failure_reads (parse : String → Option (List String))
    (st : Store) (q : ListQuery) (id : Int) (c : Creator) (s : String)
    (hfind : findCreator st id = some c) (hp : c.platforms = some s)
    (hne : s ≠ "") (hfail : parse s = none) :
    (getCreatorById parse st id = .ok (outWith c (.plist []))) ∧
    ((renderForList parse c).platforms = .plist []) ∧
    ((renderForKeep parse c).platforms = .plist []) ∧
    (∀ o ∈ listCreators parse q st, ∃ d ∈ st.creators, o = renderForList parse d) ∧
    (∀ o ∈ exportCreators parse st, ∃ d ∈ st.creators, o = renderForKeep parse d) := by
  refine ⟨?_, ?_, ?_, fun o ho => listCreators_source parse q st o ho,
    fun o ho => exportCreators_source parse st o ho⟩
  · simp [getCreatorById, hfind, renderForKeep, renderPlatformsKeep, outWith, hp, hne, hfail]
  · simp [renderForList, renderPlatformsList, outWith, hp, hne, hfail]
  · simp [renderForKeep, renderPlatformsKeep, outWith, hp, hne, hfail]

/-- A creator whose platforms column holds a nonempty string that is not
valid JSON. -/
def creatorC8b : Creator :=
  { id := 2, display_name := "Rune", description := none, avatar_url := none,
    status := "live", is_featured := false, is_paid_member := false,
    featured_priority := 0, platforms := some "oops", viewers := 3,
    last_live_start := none, last_seen := some 1, created_at := 0, updated_at := 1 }

/-- Store for the C8 witness. -/
def storeC8b : Store := { creators := [creatorC8b], subscriptions := [], analytics := [] }

/-- C8 witness: get-by-id on a row with the unparseable nonempty string
returns the empty sequence. -/
theorem platforms_parse_failure_reads_witness :
    (findCreator storeC8b 2 = some creatorC8b ∧ creatorC8b.platforms = some "oops" ∧
      ("oops" : String) ≠ "" ∧ noParse "oops" = none) ∧
    getCreatorById noParse storeC8b 2 = .ok (outWith creatorC8b (.plist [])) :=
  ⟨⟨by decide, rfl, by decide, rfl⟩,
   (platforms_parse_failure_reads noParse storeC8b defaultQuery 2 creatorC8b "oops"
     (by decide) rfl (by decide) rfl).1⟩

/-- A creator with the empty string stored in platforms, for the C9
counterexample. -/
def creatorC9 : Creator :=
  { id := 4, display_name := "Mira", description := none, avatar_url := none,
    status := "offline", is_featured := false, is_paid_member := false,
    featured_priority := 0, platforms := some "", viewers := 0,
    last_live_start := none, last_seen := none, created_at := 0, updated_at := 0 }

/-- Store for the C9 counterexample. -/
def storeC9 : Store := { creators := [creatorC9], subscriptions := [], analytics := [] }

/-- C9 (counterexample): for an empty-string platforms column — a case
the claim includes — get-by-id returns the empty string unchanged, not
null; the list rendering does return the empty sequence, so the two
operations still disagree, but not in the way the claim states. -/
theorem platforms_empty_get_not_null :
    getCreatorById noParse storeC9 4 = .ok (outWith creatorC9 (.praw "")) ∧
    PlatOut.praw "" ≠ PlatOut.pnull ∧
    (renderForList noParse creatorC9).platforms = .plist [] :=
  ⟨rfl, by decide, rfl⟩

/-- C9 (amended): for a row whose platforms column is NULL, get-by-id
returns it as null while the list rendering returns the empty sequence;
for a row whose platforms column is the empty string, get-by-id returns
the empty string unchanged while the list rendering again returns the
empty sequence — in both edge cases the two read operations disagree.
Every row the list endpoint returns is the list-rendering of a stored
row. -/
theorem platforms_null_empty_divergence (parse : String → Option (List String))
    (st : Store) (id : Int) (c : Creator) (hfind : findCreator st id = some c) :
    (c.platforms = none →
      getCreatorById parse st id = .ok (outWith c .pnull) ∧
      (renderForList parse c).platforms = .plist []) ∧
    (c.platforms = some "" →
      getCreatorById parse st id = .ok (outWith c (.praw "")) ∧
      (renderForList parse c).platforms = .plist []) ∧
    (∀ q : ListQuery, ∀ o ∈ listCreators parse q st,
      ∃ d ∈ st.creators, o = renderForList parse d) := by
  refine ⟨?_, ?_, fun q o ho => listCreators_source parse q st o ho⟩
  · intro hp
    constructor
    · simp [getCreatorById, hfind, renderForKeep, renderPlatformsKeep, outWith, hp]
    · simp [renderForList, renderPlatformsList, outWith, hp]
  · intro hp
    constructor
    · simp [getCreatorById, hfind, renderForKeep, renderPlatformsKeep, outWith, hp]
    · simp [renderForList, renderPlatformsList, outWith, hp]

/-- A creator with a NULL platforms column, for the C9 witness. -/
def creatorC9w : Creator :=
  { id := 5, display_name := "Sage", description := none, avatar_url := none,
    status := "offline", is_featured := false, is_paid_member := false,
    featured_priority := 0, platforms := none, viewers := 0,
    last_live_start := none, last_seen := none, created_at := 0, updated_at := 0 }

/-- Store for the C9 witness. -/
def storeC9w : Store := { creators := [creatorC9w], subscriptions := [], analytics := [] }

/-- C9 witness: the NULL case evaluated concretely — get keeps null, the
list rendering yields the empty sequence. -/
theorem platforms_null_empty_divergence_witness :
    (findCreator storeC9w 5 = some creatorC9w ∧ creatorC9w.platforms = none) ∧
    (getCreatorById noParse storeC9w 5 = .ok (outWith creatorC9w .pnull) ∧
      (renderForList noParse creatorC9w).platforms = .plist []) :=
  ⟨⟨by decide, rfl⟩,
   (platforms_null_empty_divergence noParse storeC9w 5 creatorC9w (by decide)).1 rfl⟩
